import Mathlib

/-!
Verification of the Session Bridge (`src/app/providers/SupabaseProvider.tsx`):
a React context provider wrapping an external auth client.  The external
client is modelled as a record of oracle functions; each awaited call either
throws (an exception value of type `ε`, via `Except.error`) or resolves to a
response whose `error` field is `none` on success.  The provider's local
React state (`user`, `loading`) is modelled as an explicit `SessionState`
record threaded through the operations, and the asynchronous snapshot fetch /
subscription callbacks become a step function on that state.
-/

set_option autoImplicit false

/-- An error object returned by the external service.  The provider only ever
inspects the optional `message` field of such objects, so that is all we
keep. -/
structure ErrVal where
  message : Option String
deriving DecidableEq

/-- Boolean test that `pat` is a prefix of `l` (character-by-character). -/
def isPrefixB : List Char → List Char → Bool
  | [], _ => true
  | _ :: _, [] => false
  | a :: as, b :: bs => a == b && isPrefixB as bs

/-- Boolean test that `pat` occurs as a contiguous sublist of the second
argument; the recursion mirrors scanning every suffix. -/
def hasSubList (pat : List Char) : List Char → Bool
  | [] => pat.isEmpty
  | c :: rest => isPrefixB pat (c :: rest) || hasSubList pat rest

/-- Embedding of JavaScript `m.includes(s)` on strings: substring
containment. -/
def strIncludes (m s : String) : Bool :=
  hasSubList s.data m.data

/-- Embedding of the optional-chained test `e?.message?.includes(s)` applied
to the password-reset probe error in `signIn`: true iff the error is present,
carries a `message`, and that message contains `s`. -/
def errMsgIncludes (e : Option ErrVal) (s : String) : Bool :=
  match e with
  | none => false
  | some v =>
    match v.message with
    | none => false
    | some m => strIncludes m s

/-- The calls the provider makes to the external auth client, recorded as a
trace in the order they are awaited. -/
inductive AuthCall where
  | resetPasswordForEmail (email : String)
  | signInWithPassword (email password : String)
  | signUpCall (email password name : String) (company : Option String)
  | signOutCall
deriving DecidableEq

/-- The external auth client (`supabase.auth`), one field per method the
provider uses.  `signUp`'s response also carries `data` in the source, but
the provider never reads it, so only the `error` component is modelled. -/
structure AuthClient (ε : Type) where
  resetPasswordForEmail : String → Except ε (Option ErrVal)
  signInWithPassword : String → String → Except ε (Option ErrVal)
  signUp : String → String → String → Option String → Except ε (Option ErrVal)
  signOut : Except ε (Option ErrVal)

/-- The `error` field of the results the provider returns to callers:
`null`, one of the literal `\x7b message: ... \x7d` objects built inside
`signIn` (`tagged`), a raw SDK error object passed through unmapped
(`sdk`), or a caught thrown value (`thrown`). -/
inductive ResultError (ε : Type) where
  | null
  | tagged (message : String)
  | sdk (e : ErrVal)
  | thrown (e : ε)
deriving DecidableEq

/-- Result of `signIn`: the `error` field plus the `emailExists` flag (every
return site of the source sets both). -/
structure SignInResult (ε : Type) where
  error : ResultError ε
  emailExists : Bool
deriving DecidableEq

/-- Result of `signUp`: just the `error` field. -/
structure SignUpResult (ε : Type) where
  error : ResultError ε
deriving DecidableEq

/-- Embedding of the provider's `signIn`.  It first awaits
`resetPasswordForEmail` as an existence probe; if that probe's error message
includes `User not found` it returns the tagged `EMAIL_NOT_FOUND` result
without any further call.  Otherwise it awaits `signInWithPassword`; any
error value there becomes the tagged `INVALID_PASSWORD` result, and no error
means success.  The surrounding `try`/`catch` turns any thrown value into
`\x7b error, emailExists: false \x7d`.  The second component is the trace of
external calls awaited during the run. -/
def signIn {ε : Type} (c : AuthClient ε) (email password : String) :
    SignInResult ε × List AuthCall :=
  match c.resetPasswordForEmail email with
  | .error e => (⟨.thrown e, false⟩, [.resetPasswordForEmail email])
  | .ok resetError =>
    if errMsgIncludes resetError "User not found" then
      (⟨.tagged "EMAIL_NOT_FOUND", false⟩, [.resetPasswordForEmail email])
    else
      match c.signInWithPassword email password with
      | .error e =>
        (⟨.thrown e, false⟩,
          [.resetPasswordForEmail email, .signInWithPassword email password])
      | .ok (some _) =>
        (⟨.tagged "INVALID_PASSWORD", true⟩,
          [.resetPasswordForEmail email, .signInWithPassword email password])
      | .ok none =>
        (⟨.null, true⟩,
          [.resetPasswordForEmail email, .signInWithPassword email password])

/-- Embedding of the provider's `signUp`: forwards to the client's sign-up
with the metadata, returns the raw error unmapped if there is one, `null`
otherwise; a thrown value is caught and returned in the result. -/
def signUp {ε : Type} (c : AuthClient ε) (email password name : String)
    (company : Option String) : SignUpResult ε × List AuthCall :=
  match c.signUp email password name company with
  | .error e => (⟨.thrown e⟩, [.signUpCall email password name company])
  | .ok (some err) => (⟨.sdk err⟩, [.signUpCall email password name company])
  | .ok none => (⟨.null⟩, [.signUpCall email password name company])

/-- Result of one profile-store query (`.select('id').eq('email', email)
.single()`): a `data` row (here just the selected id) or `none`, plus an
optional error. -/
structure QueryResult (ρ : Type) where
  data : Option ρ
  error : Option ErrVal
deriving DecidableEq

/-- Embedding of the provider's `checkEmailExists`: awaits the profile-store
query for the email; a thrown value or a returned error yields `false`
(logged and absorbed in the source), otherwise the result is whether `data`
is non-null. -/
def checkEmailExists {ε ρ : Type} (query : String → Except ε (QueryResult ρ))
    (email : String) : Bool :=
  match query email with
  | .error _ => false
  | .ok r =>
    match r.error with
    | some _ => false
    | none => r.data.isSome

/-- A row of the external profile store: an application-level id plus the
email it is keyed by. -/
structure ProfileRow where
  id : Nat
  email : String
deriving DecidableEq

/-- Modelled from the spec: the external profile-store lookup consumed by
`checkEmailExists`, which the spec describes as "query a profile store by
exact email match → a single row or not-found" (§6).  The first row whose
email matches exactly is returned as `data`; otherwise the not-found outcome
has no data and no error. -/
def profileLookup : List ProfileRow → String → QueryResult Nat
  | [], _ => { data := none, error := none }
  | p :: rest, email =>
    if p.email == email then { data := some p.id, error := none }
    else profileLookup rest email

/-- The provider's local React state: the cached identity (`user`) and the
`loading` flag.  `ι` is the opaque identity type owned by the external
service. -/
structure SessionState (ι : Type) where
  user : Option ι
  loading : Bool
deriving DecidableEq

/-- State at bridge activation: `useState(null)` / `useState(true)`. -/
def initialState {ι : Type} : SessionState ι :=
  { user := none, loading := true }

/-- Embedding of `setUser`. -/
def setUser {ι : Type} (u : Option ι) (s : SessionState ι) : SessionState ι :=
  { s with user := u }

/-- Embedding of `setLoading`. -/
def setLoading {ι : Type} (b : Bool) (s : SessionState ι) : SessionState ι :=
  { s with loading := b }

/-- The asynchronous resolutions that mutate the provider's state: the
initial `getSession` snapshot (which may throw, carrying the session's user
or `none` otherwise) and a subscription (`onAuthStateChange`) event carrying
the new session's user or `none`. -/
inductive BridgeEvent (ε ι : Type) where
  | snapshot (res : Except ε (Option ι))
  | authChange (session : Option ι)

/-- Embedding of the mount-time `checkUser`: on a resolved snapshot it sets
the user from the session (`session?.user || null`); on a thrown value the
error is logged only; in both cases the `finally` block sets `loading` to
`false`. -/
def checkUser {ε ι : Type} (res : Except ε (Option ι)) (s : SessionState ι) :
    SessionState ι :=
  match res with
  | .ok u => setLoading false (setUser u s)
  | .error _ => setLoading false s

/-- Embedding of the `onAuthStateChange` callback body: set the user from
the event's session, then set `loading` to `false`. -/
def onAuthChange {ι : Type} (session : Option ι) (s : SessionState ι) :
    SessionState ι :=
  setLoading false (setUser session s)

/-- One event-processing step of the bridge. -/
def step {ε ι : Type} (s : SessionState ι) : BridgeEvent ε ι → SessionState ι
  | .snapshot res => checkUser res s
  | .authChange u => onAuthChange u s

/-- The state after a bridge instance, activated in `initialState`, has
processed a sequence of events. -/
def runBridge {ε ι : Type} (evs : List (BridgeEvent ε ι)) : SessionState ι :=
  evs.foldl step initialState

/-- The `signIn` operation as a transformer of the provider's local state:
its body contains no `setUser`/`setLoading` call, so the `SessionState`
component is threaded through unchanged. -/
def signInOp {ε ι : Type} (c : AuthClient ε) (email password : String)
    (st : SessionState ι) : (SignInResult ε × List AuthCall) × SessionState ι :=
  (signIn c email password, st)

/-- Embedding of the provider's `signOut` as a state transformer: it awaits
the client's sign-out (whose thrown values it does not catch) and touches no
local state. -/
def signOut {ε ι : Type} (c : AuthClient ε) (st : SessionState ι) :
    (Except ε Unit × List AuthCall) × SessionState ι :=
  (((match c.signOut with
     | .error e => .error e
     | .ok _ => .ok () : Except ε Unit), [AuthCall.signOutCall]), st)

/-- Demo client whose password-reset probe reports an unregistered email. -/
def clientNotFound : AuthClient Nat :=
  { resetPasswordForEmail := fun _ => .ok (some { message := some "User not found" })
    signInWithPassword := fun _ _ => .ok none
    signUp := fun _ _ _ _ => .ok none
    signOut := .ok none }

/-- Demo client whose probe succeeds and whose sign-in returns an error
value. -/
def clientBadPassword : AuthClient Nat :=
  { resetPasswordForEmail := fun _ => .ok none
    signInWithPassword := fun _ _ => .ok (some { message := some "boom" })
    signUp := fun _ _ _ _ => .ok (some { message := some "taken" })
    signOut := .ok none }

/-- Demo client for which every operation succeeds. -/
def clientHappy : AuthClient Nat :=
  { resetPasswordForEmail := fun _ => .ok none
    signInWithPassword := fun _ _ => .ok none
    signUp := fun _ _ _ _ => .ok none
    signOut := .ok none }

/-- Demo client for which every operation throws the exception value `7`. -/
def clientThrows : AuthClient Nat :=
  { resetPasswordForEmail := fun _ => .error 7
    signInWithPassword := fun _ _ => .error 7
    signUp := fun _ _ _ _ => .error 7
    signOut := .error 7 }

/-- Demo client whose probe succeeds but whose sign-in attempt throws. -/
def clientSignInThrows : AuthClient Nat :=
  { resetPasswordForEmail := fun _ => .ok none
    signInWithPassword := fun _ _ => .error 3
    signUp := fun _ _ _ _ => .ok none
    signOut := .ok none }

/-- Demo client whose probe resolves with an error unrelated to email
existence. -/
def clientOtherProbeError : AuthClient Nat :=
  { resetPasswordForEmail :=
      fun _ => .ok (some { message := some "rate limit exceeded" })
    signInWithPassword := fun _ _ => .ok (some { message := some "bad" })
    signUp := fun _ _ _ _ => .ok none
    signOut := .ok none }

/-- C1: when the existence probe resolves with an error whose message
includes `User not found`, `signIn` returns the tagged
`\x7b EMAIL_NOT_FOUND, emailExists: false \x7d` result and its call trace is
just the probe — the external sign-in operation is never invoked in that
call. -/
theorem signIn_unregistered_email {ε : Type} (c : AuthClient ε)
    (email password : String) (r : Option ErrVal)
    (hreset : c.resetPasswordForEmail email = .ok r)
    (hmsg : errMsgIncludes r "User not found" = true) :
    (signIn c email password).1 = ⟨.tagged "EMAIL_NOT_FOUND", false⟩ ∧
    (signIn c email password).2 = [AuthCall.resetPasswordForEmail email] := by
  simp [signIn, hreset, hmsg]

/-- Witness for C1 at a concrete client and email. -/
theorem signIn_unregistered_email_witness :
    clientNotFound.resetPasswordForEmail "a@b.com" =
      .ok (some { message := some "User not found" }) ∧
    errMsgIncludes (some { message := some "User not found" }) "User not found" = true ∧
    ((signIn clientNotFound "a@b.com" "pw").1 = ⟨.tagged "EMAIL_NOT_FOUND", false⟩ ∧
      (signIn clientNotFound "a@b.com" "pw").2 =
        [AuthCall.resetPasswordForEmail "a@b.com"]) :=
  ⟨rfl, by decide,
    signIn_unregistered_email clientNotFound "a@b.com" "pw"
      (some { message := some "User not found" }) rfl (by decide)⟩

/-- C2: once the probe has deemed the email to exist (it resolved and its
error message does not include `User not found`), any error value from the
external sign-in operation — whatever its actual cause — yields the tagged
`\x7b INVALID_PASSWORD, emailExists: true \x7d` result. -/
theorem signIn_failure_invalid_password {ε : Type} (c : AuthClient ε)
    (email password : String) (r : Option ErrVal) (e : ErrVal)
    (hreset : c.resetPasswordForEmail email = .ok r)
    (hmsg : errMsgIncludes r "User not found" = false)
    (hsign : c.signInWithPassword email password = .ok (some e)) :
    (signIn c email password).1 = ⟨.tagged "INVALID_PASSWORD", true⟩ := by
  simp [signIn, hreset, hmsg, hsign]

/-- Witness for C2 at a concrete client and credentials. -/
theorem signIn_failure_invalid_password_witness :
    clientBadPassword.resetPasswordForEmail "a@b.com" = .ok none ∧
    errMsgIncludes none "User not found" = false ∧
    clientBadPassword.signInWithPassword "a@b.com" "wrong" =
      .ok (some { message := some "boom" }) ∧
    (signIn clientBadPassword "a@b.com" "wrong").1 =
      ⟨.tagged "INVALID_PASSWORD", true⟩ :=
  ⟨rfl, rfl, rfl,
    signIn_failure_invalid_password clientBadPassword "a@b.com" "wrong"
      none { message := some "boom" } rfl rfl rfl⟩

/-- C5: when the probe deems the email to exist and the external sign-in
succeeds, `signIn` returns `\x7b error: null, emailExists: true \x7d`; as a
state transformer it leaves `SessionState` unchanged, and the identity
update arrives via the subscription step instead. -/
theorem signIn_success_no_state_change {ε ι : Type} (c : AuthClient ε)
    (email password : String) (st : SessionState ι) (u : Option ι)
    (r : Option ErrVal)
    (hreset : c.resetPasswordForEmail email = .ok r)
    (hmsg : errMsgIncludes r "User not found" = false)
    (hsign : c.signInWithPassword email password = .ok none) :
    (signIn c email password).1 = ⟨.null, true⟩ ∧
    (signInOp c email password st).2 = st ∧
    (step ((signInOp c email password st).2)
        (BridgeEvent.authChange (ε := ε) u)).user = u := by
  refine ⟨?_, rfl, rfl⟩
  simp [signIn, hreset, hmsg, hsign]

/-- Witness for C5 at a concrete client, state and identity. -/
theorem signIn_success_no_state_change_witness :
    clientHappy.resetPasswordForEmail "a@b.com" = .ok none ∧
    errMsgIncludes none "User not found" = false ∧
    clientHappy.signInWithPassword "a@b.com" "pw" = .ok none ∧
    ((signIn clientHappy "a@b.com" "pw").1 = ⟨.null, true⟩ ∧
      (signInOp clientHappy "a@b.com" "pw"
        (initialState (ι := Nat))).2 = initialState ∧
      (step ((signInOp clientHappy "a@b.com" "pw"
          (initialState (ι := Nat))).2)
        (BridgeEvent.authChange (ε := Nat) (some 5))).user = some 5) :=
  ⟨rfl, rfl, rfl,
    signIn_success_no_state_change clientHappy "a@b.com" "pw"
      initialState (some 5) none rfl rfl rfl⟩

/-- Every event the bridge processes leaves `loading` false: both the
snapshot handler (via its `finally`) and the subscription callback set it. -/
theorem step_loading_false {ε ι : Type} (s : SessionState ι)
    (e : BridgeEvent ε ι) : (step s e).loading = false := by
  cases e with
  | snapshot res => cases res <;> rfl
  | authChange u => rfl

/-- After a nonempty event sequence, `loading` is false from any start
state. -/
theorem foldl_step_loading {ε ι : Type} (evs : List (BridgeEvent ε ι))
    (s : SessionState ι) (h : evs ≠ []) :
    (evs.foldl step s).loading = false := by
  induction evs generalizing s with
  | nil => exact absurd rfl h
  | cons e rest ih =>
    cases rest with
    | nil => simpa [List.foldl] using step_loading_false s e
    | cons e2 r2 => simpa [List.foldl] using ih (step s e) (by simp)

/-- C3: the bridge activates with `loading = true`; after any event is
processed `loading` is false (so the flag flips at the first resolution of
either the snapshot fetch or a subscription event, whichever comes first,
and never reverts), and after any nonempty event sequence from activation it
is still false. -/
theorem loading_transitions_once {ε ι : Type} (evs : List (BridgeEvent ε ι))
    (s : SessionState ι) (e : BridgeEvent ε ι) (h : evs ≠ []) :
    (initialState : SessionState ι).loading = true ∧
    (step s e).loading = false ∧
    (runBridge evs).loading = false :=
  ⟨rfl, step_loading_false s e, foldl_step_loading evs initialState h⟩

/-- Witness for C3 on a one-event activation. -/
theorem loading_transitions_once_witness :
    ([BridgeEvent.authChange (some 1)] : List (BridgeEvent Nat Nat)) ≠ [] ∧
    ((initialState : SessionState Nat).loading = true ∧
      (step (initialState : SessionState Nat)
        (BridgeEvent.snapshot (Except.ok (some 1)) : BridgeEvent Nat Nat)).loading
        = false ∧
      (runBridge
        ([BridgeEvent.authChange (some 1)] : List (BridgeEvent Nat Nat))).loading
        = false) :=
  ⟨List.cons_ne_nil _ _,
    loading_transitions_once _ initialState
      (BridgeEvent.snapshot (Except.ok (some 1))) (List.cons_ne_nil _ _)⟩

/-- The spec-modelled lookup never reports an error of its own. -/
theorem profileLookup_error_none (store : List ProfileRow) (email : String) :
    (profileLookup store email).error = none := by
  induction store with
  | nil => rfl
  | cons p rest ih =>
    by_cases h : p.email == email
    · simp [profileLookup, h]
    · simp [profileLookup, h, ih]

/-- The spec-modelled lookup has data exactly when some row's email matches
exactly. -/
theorem profileLookup_data_isSome (store : List ProfileRow) (email : String) :
    (profileLookup store email).data.isSome
      = store.any fun p => p.email == email := by
  induction store with
  | nil => rfl
  | cons p rest ih =>
    by_cases h : p.email == email
    · simp [profileLookup, h]
    · simp [profileLookup, h, ih]

/-- C4: against the spec-modelled store lookup, `checkEmailExists` returns
true exactly when some row's email matches exactly; it returns false when
the query throws and when the query reports an error — the error is absorbed
into the boolean, never propagated. -/
theorem checkEmailExists_spec {ε ρ : Type} (store : List ProfileRow)
    (email : String) (ex : ε) (r : QueryResult ρ)
    (herr : r.error.isSome = true) :
    checkEmailExists
        (fun e => (.ok (profileLookup store e) : Except ε (QueryResult Nat)))
        email
      = store.any (fun p => p.email == email) ∧
    checkEmailExists (fun _ => (.error ex : Except ε (QueryResult ρ))) email
      = false ∧
    checkEmailExists (fun _ => (.ok r : Except ε (QueryResult ρ))) email
      = false := by
  refine ⟨?_, rfl, ?_⟩
  · simp [checkEmailExists, profileLookup_error_none, profileLookup_data_isSome]
  · obtain ⟨v, hv⟩ := Option.isSome_iff_exists.mp herr
    simp [checkEmailExists, hv]

/-- Witness for C4 on a two-row store and a concrete erroring query. -/
theorem checkEmailExists_spec_witness :
    (({ data := none, error := some { message := some "down" } }
        : QueryResult Nat).error.isSome = true) ∧
    (checkEmailExists
        (fun e => (.ok (profileLookup [⟨1, "a@b.com"⟩, ⟨2, "c@d.com"⟩] e)
          : Except Nat (QueryResult Nat))) "a@b.com"
      = ([⟨1, "a@b.com"⟩, ⟨2, "c@d.com"⟩] : List ProfileRow).any
          (fun p => p.email == "a@b.com") ∧
    checkEmailExists
        (fun _ => (.error 9 : Except Nat (QueryResult Nat))) "a@b.com"
      = false ∧
    checkEmailExists
        (fun _ => (.ok { data := none, error := some { message := some "down" } }
          : Except Nat (QueryResult Nat))) "a@b.com"
      = false) :=
  ⟨rfl, checkEmailExists_spec [⟨1, "a@b.com"⟩, ⟨2, "c@d.com"⟩] "a@b.com" 9
    { data := none, error := some { message := some "down" } } rfl⟩

/-- C6: processing a subscription event carrying identity `u` (or `none` for
absence) makes the state's identity equal `u` in that very step — reading
the state immediately afterwards observes it, with no further asynchronous
hop in the model. -/
theorem authChange_sets_identity {ε ι : Type} (s : SessionState ι)
    (u : Option ι) :
    (step s (BridgeEvent.authChange u : BridgeEvent ε ι)).user = u := rfl

/-- C7: errors cross the public contract as values: a sign-up failure is
returned verbatim as the raw external error object, unmapped; a value thrown
inside `signUp` or inside `signIn` is caught and returned in the result,
never propagated to the caller. -/
theorem errors_returned_as_values {ε : Type} (c cth : AuthClient ε)
    (email password name : String) (company : Option String)
    (e : ErrVal) (ex ex2 : ε)
    (h1 : c.signUp email password name company = .ok (some e))
    (h2 : cth.signUp email password name company = .error ex)
    (h3 : cth.resetPasswordForEmail email = .error ex2) :
    (signUp c email password name company).1 = ⟨.sdk e⟩ ∧
    (signUp cth email password name company).1 = ⟨.thrown ex⟩ ∧
    (signIn cth email password).1 = ⟨.thrown ex2, false⟩ := by
  refine ⟨?_, ?_, ?_⟩ <;> simp [signUp, signIn, h1, h2, h3]

/-- Witness for C7 at a failing and a throwing client. -/
theorem errors_returned_as_values_witness :
    clientBadPassword.signUp "a@b.com" "pw" "Ann" none
      = .ok (some { message := some "taken" }) ∧
    clientThrows.signUp "a@b.com" "pw" "Ann" none = .error 7 ∧
    clientThrows.resetPasswordForEmail "a@b.com" = .error 7 ∧
    ((signUp clientBadPassword "a@b.com" "pw" "Ann" none).1
        = ⟨.sdk { message := some "taken" }⟩ ∧
      (signUp clientThrows "a@b.com" "pw" "Ann" none).1 = ⟨.thrown 7⟩ ∧
      (signIn clientThrows "a@b.com" "pw").1 = ⟨.thrown 7, false⟩) :=
  ⟨rfl, rfl, rfl,
    errors_returned_as_values clientBadPassword clientThrows "a@b.com" "pw"
      "Ann" none { message := some "taken" } 7 7 rfl rfl rfl⟩

/-- C8: `signOut` performs no direct mutation of the local `SessionState`
(neither identity nor loading): its state component is returned unchanged,
and its only effect is the single forwarded external sign-out call. -/
theorem signOut_no_state_mutation {ε ι : Type} (c : AuthClient ε)
    (st : SessionState ι) :
    (signOut c st).2 = st ∧ (signOut c st).1.2 = [AuthCall.signOutCall] :=
  ⟨rfl, rfl⟩

/-- C9: for a probe that resolves with an outcome whose error message does
not include the exact substring `User not found` — success, or any other
error such as rate limiting reported as an error value — `signIn` treats the
email as existing: the external sign-in attempt is invoked and the result is
never classified `EMAIL_NOT_FOUND`. -/
theorem signIn_probe_classification {ε : Type} (c : AuthClient ε)
    (email password : String) (r : Option ErrVal)
    (hreset : c.resetPasswordForEmail email = .ok r)
    (hmsg : errMsgIncludes r "User not found" = false) :
    AuthCall.signInWithPassword email password ∈ (signIn c email password).2 ∧
    (signIn c email password).1.error ≠ ResultError.tagged "EMAIL_NOT_FOUND" := by
  cases hs : c.signInWithPassword email password with
  | error e => simp [signIn, hreset, hmsg, hs]
  | ok o => cases o <;> simp [signIn, hreset, hmsg, hs]

/-- Witness for C9 with a probe that resolves with a non-matching error. -/
theorem signIn_probe_classification_witness :
    clientOtherProbeError.resetPasswordForEmail "a@b.com"
      = .ok (some { message := some "rate limit exceeded" }) ∧
    errMsgIncludes (some { message := some "rate limit exceeded" })
      "User not found" = false ∧
    (AuthCall.signInWithPassword "a@b.com" "pw"
        ∈ (signIn clientOtherProbeError "a@b.com" "pw").2 ∧
      (signIn clientOtherProbeError "a@b.com" "pw").1.error
        ≠ ResultError.tagged "EMAIL_NOT_FOUND") :=
  ⟨rfl, by decide,
    signIn_probe_classification clientOtherProbeError "a@b.com" "pw"
      (some { message := some "rate limit exceeded" }) rfl (by decide)⟩

/-- C10: whenever a step of `signIn` throws, the `catch` returns the raw
thrown value with `emailExists: false` and no tagging — covering both the
probe throwing and, after the email was deemed to exist, the sign-in attempt
throwing (where `emailExists: false` is reported even though the email may
be registered). -/
theorem signIn_thrown_raw {ε : Type} (c1 c2 : AuthClient ε)
    (email password : String) (ex1 ex2 : ε) (r : Option ErrVal)
    (h1 : c1.resetPasswordForEmail email = .error ex1)
    (h2 : c2.resetPasswordForEmail email = .ok r)
    (h3 : errMsgIncludes r "User not found" = false)
    (h4 : c2.signInWithPassword email password = .error ex2) :
    (signIn c1 email password).1 = ⟨.thrown ex1, false⟩ ∧
    (signIn c2 email password).1 = ⟨.thrown ex2, false⟩ := by
  constructor <;> simp [signIn, h1, h2, h3, h4]

/-- Witness for C10 at a probe-throwing and a sign-in-throwing client. -/
theorem signIn_thrown_raw_witness :
    clientThrows.resetPasswordForEmail "a@b.com" = .error 7 ∧
    clientSignInThrows.resetPasswordForEmail "a@b.com" = .ok none ∧
    errMsgIncludes none "User not found" = false ∧
    clientSignInThrows.signInWithPassword "a@b.com" "pw" = .error 3 ∧
    ((signIn clientThrows "a@b.com" "pw").1 = ⟨.thrown 7, false⟩ ∧
      (signIn clientSignInThrows "a@b.com" "pw").1 = ⟨.thrown 3, false⟩) :=
  ⟨rfl, rfl, rfl, rfl,
    signIn_thrown_raw clientThrows clientSignInThrows "a@b.com" "pw" 7 3
      none rfl rfl rfl rfl⟩
